import Mathlib

/-!
Verification of the scrollable-viewport and configuration machinery of the
lapce editor excerpt (`src/core/src/scroll.rs`, `src/core/src/config.rs`).

`f64` values are modelled as rationals (`ℚ`): all the arithmetic the claims
are about (min/max clamping, division, `ceil`, comparison) is exact here, and
no claim concerns rounding of IEEE-754 operations.  `f64::ceil` is modelled by
`Int.ceil` on `ℚ`.
-/

namespace Lapce

/-- Model of `kurbo::Point`. -/
structure Point where
  x : ℚ
  y : ℚ
  deriving DecidableEq, Repr

/-- Model of `kurbo::Vec2`. -/
structure Vec2 where
  x : ℚ
  y : ℚ
  deriving DecidableEq, Repr

/-- Model of `kurbo::Size`. -/
structure Size where
  width : ℚ
  height : ℚ
  deriving DecidableEq, Repr

/-- Model of `kurbo::Rect` with the `x0, y0, x1, y1` representation. -/
structure Rect where
  x0 : ℚ
  y0 : ℚ
  x1 : ℚ
  y1 : ℚ
  deriving DecidableEq, Repr

/-- Model of `Rect::width`: `x1 - x0`. -/
def Rect.width (r : Rect) : ℚ := r.x1 - r.x0

/-- Model of `Rect::height`: `y1 - y0`. -/
def Rect.height (r : Rect) : ℚ := r.y1 - r.y0

/-- Model of `Rect::origin`: the point `(x0, y0)`. -/
def Rect.origin (r : Rect) : Point := ⟨r.x0, r.y0⟩

/-- Model of `Rect::size`. -/
def Rect.size (r : Rect) : Size := ⟨r.width, r.height⟩

/-- Model of `Rect::with_origin`: same size, new origin. -/
def Rect.with_origin (r : Rect) (p : Point) : Rect :=
  ⟨p.x, p.y, p.x + r.width, p.y + r.height⟩

/-- Model of `Rect::ZERO`. -/
def Rect.ZERO : Rect := ⟨0, 0, 0, 0⟩

/-- Model of `Rect::contains` (kurbo): half-open membership test. -/
def Rect.contains (r : Rect) (p : Point) : Bool :=
  decide (r.x0 ≤ p.x) && decide (p.x < r.x1) &&
  decide (r.y0 ≤ p.y) && decide (p.y < r.y1)

/-- Model of `Rect::inset` with a uniform inset `d` (positive `d` expands). -/
def Rect.inset (r : Rect) (d : ℚ) : Rect :=
  ⟨r.x0 - d, r.y0 - d, r.x1 + d, r.y1 + d⟩

/-- Model of `rect - vec2` (translation by the negated vector). -/
def Rect.subVec (r : Rect) (v : Vec2) : Rect :=
  ⟨r.x0 - v.x, r.y0 - v.y, r.x1 - v.x, r.y1 - v.y⟩

/-- Model of `point + vec2`. -/
def Point.addVec (p : Point) (v : Vec2) : Point := ⟨p.x + v.x, p.y + v.y⟩

/-- Model of `point - point`, a vector. -/
def Point.sub (p q : Point) : Vec2 := ⟨p.x - q.x, p.y - q.y⟩

/-- Model of `Point::to_vec2`. -/
def Point.to_vec2 (p : Point) : Vec2 := ⟨p.x, p.y⟩

/-- Model of `Vec2::hypot2`: squared length. -/
def Vec2.hypot2 (v : Vec2) : ℚ := v.x * v.x + v.y * v.y

/-- Model of `f64::ceil`, exact on rationals. -/
def f64ceil (x : ℚ) : ℚ := (Int.ceil x : ℚ)

/-- The literal `1e-12` used as the pan threshold. -/
def PAN_EPS : ℚ := 1 / 10 ^ 12

/-! ## `Viewport` (`scroll.rs` lines 15–78) -/

/-- Model of `Viewport`: size of the content area and the view rectangle. -/
structure Viewport where
  content_size : Size
  rect : Rect
  deriving DecidableEq, Repr

/-- Model of `Viewport::clamp_view_origin`: per dimension `origin.min(content - view).max(0.0)`. -/
def Viewport.clamp_view_origin (self : Viewport) (origin : Point) : Point :=
  ⟨max (min origin.x (self.content_size.width - self.rect.width)) 0,
   max (min origin.y (self.content_size.height - self.rect.height)) 0⟩

/-- Model of `Viewport::pan_to`: clamp, then move only when the squared distance exceeds `1e-12`. -/
def Viewport.pan_to (self : Viewport) (origin : Point) : Viewport × Bool :=
  let new_origin := self.clamp_view_origin origin
  if PAN_EPS < (new_origin.sub self.rect.origin).hypot2 then
    ({ self with rect := self.rect.with_origin new_origin }, true)
  else
    (self, false)

/-- Model of `Viewport::pan_by`: pan to `origin + delta`. -/
def Viewport.pan_by (self : Viewport) (delta : Vec2) : Viewport × Bool :=
  self.pan_to (self.rect.origin.addVec delta)

/-- Model of `Viewport::force_pan_to`: move without clamping when the squared distance
exceeds `1e-12`. -/
def Viewport.force_pan_to (self : Viewport) (origin : Point) : Viewport × Bool :=
  if PAN_EPS < (origin.sub self.rect.origin).hypot2 then
    ({ self with rect := self.rect.with_origin origin }, true)
  else
    (self, false)

/-! ## `ViewportNew` (`scroll.rs` lines 955–1052), textually identical clamping -/

/-- Model of `ViewportNew`. -/
structure ViewportNew where
  content_size : Size
  rect : Rect
  deriving DecidableEq, Repr

/-- Model of `ViewportNew::clamp_view_origin`. -/
def ViewportNew.clamp_view_origin (self : ViewportNew) (origin : Point) : Point :=
  ⟨max (min origin.x (self.content_size.width - self.rect.width)) 0,
   max (min origin.y (self.content_size.height - self.rect.height)) 0⟩

/-- Model of `ViewportNew::pan_to`. -/
def ViewportNew.pan_to (self : ViewportNew) (origin : Point) : ViewportNew × Bool :=
  let new_origin := self.clamp_view_origin origin
  if PAN_EPS < (new_origin.sub self.rect.origin).hypot2 then
    ({ self with rect := self.rect.with_origin new_origin }, true)
  else
    (self, false)

/-- Model of `ViewportNew::pan_by`. -/
def ViewportNew.pan_by (self : ViewportNew) (delta : Vec2) : ViewportNew × Bool :=
  self.pan_to (self.rect.origin.addVec delta)

/-- Model of `ViewportNew::force_pan_to`: unconditionally moves the view rectangle. -/
def ViewportNew.force_pan_to (self : ViewportNew) (origin : Point) : ViewportNew :=
  { self with rect := self.rect.with_origin origin }

/-- The clamped region for a `Viewport`: each origin coordinate between `0`
and `max (content extent - view extent) 0`. -/
def Viewport.inClampedRegion (self : Viewport) : Prop :=
  0 ≤ self.rect.origin.x ∧
  self.rect.origin.x ≤ max (self.content_size.width - self.rect.width) 0 ∧
  0 ≤ self.rect.origin.y ∧
  self.rect.origin.y ≤ max (self.content_size.height - self.rect.height) 0

/-- The clamped region for a `ViewportNew`. -/
def ViewportNew.inClampedRegion (self : ViewportNew) : Prop :=
  0 ≤ self.rect.origin.x ∧
  self.rect.origin.x ≤ max (self.content_size.width - self.rect.width) 0 ∧
  0 ≤ self.rect.origin.y ∧
  self.rect.origin.y ≤ max (self.content_size.height - self.rect.height) 0

/-- The view rectangle placed at `origin` is contained in the content
rectangle `[0, content_size.width] × [0, content_size.height]`. -/
def Viewport.viewContained (self : Viewport) (origin : Point) : Prop :=
  0 ≤ origin.x ∧ origin.x + self.rect.width ≤ self.content_size.width ∧
  0 ≤ origin.y ∧ origin.y + self.rect.height ≤ self.content_size.height

/-- Containment of the view rectangle for `ViewportNew`. -/
def ViewportNew.viewContained (self : ViewportNew) (origin : Point) : Prop :=
  0 ≤ origin.x ∧ origin.x + self.rect.width ≤ self.content_size.width ∧
  0 ≤ origin.y ∧ origin.y + self.rect.height ≤ self.content_size.height

/-! ## Scrollbar component (`scroll.rs` lines 514–953 and 1268–1670)

The druid `Env` is modelled by the theme values the scroll code reads.  The
`EventCtx` is modelled only through the data the component state depends on:
`request_timer` returns a caller-supplied fresh token (`fresh`); `set_handled`,
`set_active`, `request_paint`, `request_anim_frame` and `request_paint_rect`
do not affect the component or viewport state and are omitted. -/

/-- The druid theme values read by the scroll code. -/
structure Env where
  scrollbar_width : ℚ
  scrollbar_pad : ℚ
  scrollbar_max_opacity : ℚ
  scrollbar_edge_width : ℚ
  scrollbar_fade_delay : ℕ
  deriving DecidableEq, Repr

/-- Model of `TimerToken`, with `TimerToken::INVALID` modelled as `0`. -/
abbrev TimerToken := ℕ

/-- Model of `TimerToken::INVALID`. -/
def TimerToken.INVALID : TimerToken := 0

/-- Model of `SCROLLBAR_MIN_SIZE`: minimum length of any scrollbar on its primary axis. -/
def SCROLLBAR_MIN_SIZE : ℚ := 45

/-- Model of `BarHoveredState`. -/
inductive BarHoveredState where
  | None
  | Vertical
  | Horizontal
  deriving DecidableEq, Repr

/-- Model of `BarHoveredState::is_hovered`. -/
def BarHoveredState.is_hovered : BarHoveredState → Bool
  | .Vertical => true
  | .Horizontal => true
  | .None => false

/-- Model of `BarHeldState`. -/
inductive BarHeldState where
  | None
  | Vertical (offset : ℚ)
  | Horizontal (offset : ℚ)
  deriving DecidableEq, Repr

/-- Model of `ScrollComponent`. -/
structure ScrollComponent where
  opacity : ℚ
  timer_id : TimerToken
  hovered : BarHoveredState
  held : BarHeldState
  deriving DecidableEq, Repr

/-- Model of `ScrollComponent::are_bars_held`. -/
def ScrollComponent.are_bars_held (self : ScrollComponent) : Bool :=
  match self.held with
  | .None => false
  | _ => true

/-- Model of `ScrollComponent::reset_scrollbar_fade`: opacity to the theme maximum and a
fresh fade timer (the token the context would return is the `fresh` input). -/
def ScrollComponent.reset_scrollbar_fade (self : ScrollComponent) (env : Env)
    (fresh : TimerToken) : ScrollComponent :=
  { self with opacity := env.scrollbar_max_opacity, timer_id := fresh }

/-- Model of `ScrollComponent::calc_vertical_bar_bounds`. -/
def ScrollComponent.calc_vertical_bar_bounds (_self : ScrollComponent)
    (port : Viewport) (env : Env) : Option Rect :=
  let viewport_size := port.rect.size
  let content_size := port.content_size
  let scroll_offset := port.rect.origin.to_vec2
  if content_size.height ≤ viewport_size.height then
    none
  else
    let bar_width := env.scrollbar_width
    let bar_pad := env.scrollbar_pad
    let percent_visible := viewport_size.height / content_size.height
    let percent_scrolled :=
      scroll_offset.y / (content_size.height - viewport_size.height)
    let length := f64ceil (percent_visible * viewport_size.height)
    let length := max length SCROLLBAR_MIN_SIZE
    let vertical_padding := bar_pad + bar_pad + bar_width
    let top_y_offset :=
      f64ceil ((viewport_size.height - length - vertical_padding) *
        percent_scrolled)
    let bottom_y_offset := top_y_offset + length
    let x0 := scroll_offset.x + viewport_size.width - bar_width - bar_pad
    let y0 := scroll_offset.y + top_y_offset + bar_pad
    let x1 := scroll_offset.x + viewport_size.width - bar_pad
    let y1 := scroll_offset.y + bottom_y_offset
    some ⟨x0, y0, x1, y1⟩

/-- Model of `ScrollComponent::calc_horizontal_bar_bounds`. -/
def ScrollComponent.calc_horizontal_bar_bounds (_self : ScrollComponent)
    (port : Viewport) (env : Env) : Option Rect :=
  let viewport_size := port.rect.size
  let content_size := port.content_size
  let scroll_offset := port.rect.origin.to_vec2
  if content_size.width ≤ viewport_size.width then
    none
  else
    let bar_width := env.scrollbar_width
    let bar_pad := env.scrollbar_pad
    let percent_visible := viewport_size.width / content_size.width
    let percent_scrolled :=
      scroll_offset.x / (content_size.width - viewport_size.width)
    let length := f64ceil (percent_visible * viewport_size.width)
    let length := max length SCROLLBAR_MIN_SIZE
    let horizontal_padding := bar_pad + bar_pad + bar_width
    let left_x_offset :=
      f64ceil ((viewport_size.width - length - horizontal_padding) *
        percent_scrolled)
    let right_x_offset := left_x_offset + length
    let x0 := scroll_offset.x + left_x_offset + bar_pad
    let y0 := scroll_offset.y + viewport_size.height - bar_width - bar_pad
    let x1 := scroll_offset.x + right_x_offset
    let y1 := scroll_offset.y + viewport_size.height - bar_pad
    some ⟨x0, y0, x1, y1⟩

/-- Model of `ScrollComponent::draw_bars`, modelled as the list of bar shapes painted
(the fill-and-stroke of each bar is one entry; corner rounding does not change
which shapes are painted and is not modelled). -/
def ScrollComponent.draw_bars (self : ScrollComponent) (port : Viewport)
    (env : Env) : List Rect :=
  let scroll_offset := port.rect.origin.to_vec2
  if self.opacity ≤ 0 then []
  else
    let vbar := match self.calc_vertical_bar_bounds port env with
      | some bounds =>
          [(bounds.subVec scroll_offset).inset (-(env.scrollbar_edge_width / 2))]
      | none => []
    let hbar := match self.calc_horizontal_bar_bounds port env with
      | some bounds =>
          [(bounds.subVec scroll_offset).inset (-(env.scrollbar_edge_width / 2))]
      | none => []
    vbar ++ hbar

/-- Model of `ScrollComponent::point_hits_vertical_bar`. -/
def ScrollComponent.point_hits_vertical_bar (self : ScrollComponent)
    (port : Viewport) (pos : Point) (env : Env) : Bool :=
  let viewport_size := port.rect.size
  let scroll_offset := port.rect.origin.to_vec2
  match self.calc_vertical_bar_bounds port env with
  | some bounds =>
      ({ bounds with x1 := scroll_offset.x + viewport_size.width }).contains pos
  | none => false

/-- Model of `ScrollComponent::point_hits_horizontal_bar`. -/
def ScrollComponent.point_hits_horizontal_bar (self : ScrollComponent)
    (port : Viewport) (pos : Point) (env : Env) : Bool :=
  let viewport_size := port.rect.size
  let scroll_offset := port.rect.origin.to_vec2
  match self.calc_horizontal_bar_bounds port env with
  | some bounds =>
      ({ bounds with y1 := scroll_offset.y + viewport_size.height }).contains pos
  | none => false

/-- The druid events the scroll component inspects. -/
inductive Event where
  | MouseMove (pos : Point)
  | MouseUp (pos : Point)
  | MouseDown (pos : Point)
  | Timer (id : TimerToken)
  | AnimFrame (interval : ℕ)
  | Wheel (wheel_delta : Vec2)
  | Other
  deriving DecidableEq, Repr

/-- Model of `ScrollComponent::event`.  Returns the updated component and viewport. -/
def ScrollComponent.event (self : ScrollComponent) (port : Viewport)
    (ev : Event) (env : Env) (fresh : TimerToken) :
    ScrollComponent × Viewport :=
  let viewport_size := port.rect.size
  let content_size := port.content_size
  let scroll_offset := port.rect.origin.to_vec2
  let scrollbar_is_hovered :=
    match ev with
    | .MouseMove e | .MouseUp e | .MouseDown e =>
        let offset_pos := e.addVec scroll_offset
        self.point_hits_vertical_bar port offset_pos env ||
          self.point_hits_horizontal_bar port offset_pos env
    | _ => false
  if self.are_bars_held then
    -- if we're dragging a scrollbar
    match ev with
    | .MouseMove pos =>
        match self.held with
        | .Vertical offset =>
            let scale_y := viewport_size.height / content_size.height
            let bounds := (self.calc_vertical_bar_bounds port env).getD Rect.ZERO
            let mouse_y := pos.y + scroll_offset.y
            let delta := mouse_y - bounds.y0 - offset
            (self, (port.pan_by ⟨0, f64ceil (delta / scale_y)⟩).1)
        | .Horizontal offset =>
            let scale_x := viewport_size.height / content_size.width
            let bounds :=
              (self.calc_horizontal_bar_bounds port env).getD Rect.ZERO
            let mouse_x := pos.x + scroll_offset.x
            let delta := mouse_x - bounds.x0 - offset
            (self, (port.pan_by ⟨f64ceil (delta / scale_x), 0⟩).1)
        | .None => (self, port)
    | .MouseUp _ =>
        let s := { self with held := BarHeldState.None }
        if !scrollbar_is_hovered then
          (({ s with hovered := BarHoveredState.None }).reset_scrollbar_fade
            env fresh, port)
        else
          (s, port)
    | _ => (self, port)
  else if scrollbar_is_hovered then
    -- if we're over a scrollbar but not dragging
    match ev with
    | .MouseMove pos =>
        let offset_pos := pos.addVec scroll_offset
        let hovered :=
          if self.point_hits_vertical_bar port offset_pos env then
            BarHoveredState.Vertical
          else if self.point_hits_horizontal_bar port offset_pos env then
            BarHoveredState.Horizontal
          else
            self.hovered  -- unreachable in the source
        ({ self with
            hovered := hovered
            opacity := env.scrollbar_max_opacity
            timer_id := TimerToken.INVALID }, port)
    | .MouseDown pos =>
        let p := pos.addVec scroll_offset
        if self.point_hits_vertical_bar port p env then
          let off :=
            p.y - ((self.calc_vertical_bar_bounds port env).getD Rect.ZERO).y0
          ({ self with held := BarHeldState.Vertical off }, port)
        else if self.point_hits_horizontal_bar port p env then
          let off :=
            p.x - ((self.calc_horizontal_bar_bounds port env).getD Rect.ZERO).x0
          ({ self with held := BarHeldState.Horizontal off }, port)
        else
          (self, port)  -- unreachable in the source
    | _ => (self, port)
  else
    match ev with
    | .MouseMove _ =>
        -- if we have just stopped hovering
        if self.hovered.is_hovered && !scrollbar_is_hovered then
          (({ self with hovered := BarHoveredState.None }).reset_scrollbar_fade
            env fresh, port)
        else
          (self, port)
    | .Timer id =>
        if id = self.timer_id then
          -- schedule scroll bars animation
          ({ self with timer_id := TimerToken.INVALID }, port)
        else
          (self, port)
    | .AnimFrame interval =>
        -- guarded by the timer id being invalid
        if self.timer_id = TimerToken.INVALID then
          let diff := 2 * (interval : ℚ) / 10 ^ 9
          ({ self with opacity := self.opacity - diff }, port)
        else
          (self, port)
    | _ => (self, port)

/-! ### `ScrollComponentNew` -/

/-- Model of `ScrollComponentNew`. -/
structure ScrollComponentNew where
  opacity : ℚ
  timer_id : TimerToken
  fade_interval_id : TimerToken
  hovered : BarHoveredState
  held : BarHeldState
  deriving DecidableEq, Repr

/-- Model of `ScrollComponentNew::are_bars_held`. -/
def ScrollComponentNew.are_bars_held (self : ScrollComponentNew) : Bool :=
  match self.held with
  | .None => false
  | _ => true

/-- Model of `ScrollComponentNew::reset_scrollbar_fade` (fixed 500 ms fade delay). -/
def ScrollComponentNew.reset_scrollbar_fade (self : ScrollComponentNew)
    (env : Env) (fresh : TimerToken) : ScrollComponentNew :=
  { self with opacity := env.scrollbar_max_opacity, timer_id := fresh }

/-- Model of `ScrollComponentNew::calc_vertical_bar_bounds`. -/
def ScrollComponentNew.calc_vertical_bar_bounds (_self : ScrollComponentNew)
    (port : ViewportNew) (env : Env) : Option Rect :=
  let viewport_size := port.rect.size
  let content_size := port.content_size
  let scroll_offset := port.rect.origin.to_vec2
  if content_size.height ≤ viewport_size.height then
    none
  else
    let bar_width := env.scrollbar_width
    let bar_pad := env.scrollbar_pad
    let percent_visible := viewport_size.height / content_size.height
    let percent_scrolled :=
      scroll_offset.y / (content_size.height - viewport_size.height)
    let length := f64ceil (percent_visible * viewport_size.height)
    let length := max length SCROLLBAR_MIN_SIZE
    let vertical_padding := bar_pad + bar_pad + bar_width
    let top_y_offset :=
      f64ceil ((viewport_size.height - length - vertical_padding) *
        percent_scrolled)
    let bottom_y_offset := top_y_offset + length
    let x0 := scroll_offset.x + viewport_size.width - bar_width - bar_pad
    let y0 := scroll_offset.y + top_y_offset + bar_pad
    let x1 := scroll_offset.x + viewport_size.width - bar_pad
    let y1 := scroll_offset.y + bottom_y_offset
    some ⟨x0, y0, x1, y1⟩

/-- Model of `ScrollComponentNew::calc_horizontal_bar_bounds`. -/
def ScrollComponentNew.calc_horizontal_bar_bounds (_self : ScrollComponentNew)
    (port : ViewportNew) (env : Env) : Option Rect :=
  let viewport_size := port.rect.size
  let content_size := port.content_size
  let scroll_offset := port.rect.origin.to_vec2
  if content_size.width ≤ viewport_size.width then
    none
  else
    let bar_width := env.scrollbar_width
    let bar_pad := env.scrollbar_pad
    let percent_visible := viewport_size.width / content_size.width
    let percent_scrolled :=
      scroll_offset.x / (content_size.width - viewport_size.width)
    let length := f64ceil (percent_visible * viewport_size.width)
    let length := max length SCROLLBAR_MIN_SIZE
    let horizontal_padding := bar_pad + bar_pad + bar_width
    let left_x_offset :=
      f64ceil ((viewport_size.width - length - horizontal_padding) *
        percent_scrolled)
    let right_x_offset := left_x_offset + length
    let x0 := scroll_offset.x + left_x_offset + bar_pad
    let y0 := scroll_offset.y + viewport_size.height - bar_width - bar_pad
    let x1 := scroll_offset.x + right_x_offset
    let y1 := scroll_offset.y + viewport_size.height - bar_pad
    some ⟨x0, y0, x1, y1⟩

/-- Model of `ScrollComponentNew::draw_bars`, modelled as the list of bar shapes
painted. -/
def ScrollComponentNew.draw_bars (self : ScrollComponentNew)
    (port : ViewportNew) (env : Env) : List Rect :=
  let scroll_offset := port.rect.origin.to_vec2
  if self.opacity ≤ 0 then []
  else
    let vbar := match self.calc_vertical_bar_bounds port env with
      | some bounds =>
          [(bounds.subVec scroll_offset).inset (-(env.scrollbar_edge_width / 2))]
      | none => []
    let hbar := match self.calc_horizontal_bar_bounds port env with
      | some bounds =>
          [(bounds.subVec scroll_offset).inset (-(env.scrollbar_edge_width / 2))]
      | none => []
    vbar ++ hbar

/-- Model of `ScrollComponentNew::point_hits_vertical_bar`. -/
def ScrollComponentNew.point_hits_vertical_bar (self : ScrollComponentNew)
    (port : ViewportNew) (pos : Point) (env : Env) : Bool :=
  let viewport_size := port.rect.size
  let scroll_offset := port.rect.origin.to_vec2
  match self.calc_vertical_bar_bounds port env with
  | some bounds =>
      ({ bounds with x1 := scroll_offset.x + viewport_size.width }).contains pos
  | none => false

/-- Model of `ScrollComponentNew::point_hits_horizontal_bar`. -/
def ScrollComponentNew.point_hits_horizontal_bar (self : ScrollComponentNew)
    (port : ViewportNew) (pos : Point) (env : Env) : Bool :=
  let viewport_size := port.rect.size
  let scroll_offset := port.rect.origin.to_vec2
  match self.calc_horizontal_bar_bounds port env with
  | some bounds =>
      ({ bounds with y1 := scroll_offset.y + viewport_size.height }).contains pos
  | none => false

/-- Model of `ScrollComponentNew::event`. -/
def ScrollComponentNew.event (self : ScrollComponentNew) (port : ViewportNew)
    (ev : Event) (env : Env) (fresh : TimerToken) :
    ScrollComponentNew × ViewportNew :=
  let viewport_size := port.rect.size
  let content_size := port.content_size
  let scroll_offset := port.rect.origin.to_vec2
  let scrollbar_is_hovered :=
    match ev with
    | .MouseMove e | .MouseUp e | .MouseDown e =>
        let offset_pos := e.addVec scroll_offset
        self.point_hits_vertical_bar port offset_pos env ||
          self.point_hits_horizontal_bar port offset_pos env
    | _ => false
  if self.are_bars_held then
    -- if we're dragging a scrollbar
    match ev with
    | .MouseMove pos =>
        match self.held with
        | .Vertical offset =>
            let scale_y := viewport_size.height / content_size.height
            let bounds := (self.calc_vertical_bar_bounds port env).getD Rect.ZERO
            let mouse_y := pos.y + scroll_offset.y
            let delta := mouse_y - bounds.y0 - offset
            (self, (port.pan_by ⟨0, f64ceil (delta / scale_y)⟩).1)
        | .Horizontal offset =>
            let scale_x := viewport_size.height / content_size.width
            let bounds :=
              (self.calc_horizontal_bar_bounds port env).getD Rect.ZERO
            let mouse_x := pos.x + scroll_offset.x
            let delta := mouse_x - bounds.x0 - offset
            (self, (port.pan_by ⟨f64ceil (delta / scale_x), 0⟩).1)
        | .None => (self, port)
    | .MouseUp _ =>
        let s := { self with held := BarHeldState.None }
        if !scrollbar_is_hovered then
          (({ s with hovered := BarHoveredState.None }).reset_scrollbar_fade
            env fresh, port)
        else
          (s, port)
    | _ => (self, port)
  else if scrollbar_is_hovered then
    -- if we're over a scrollbar but not dragging
    match ev with
    | .MouseMove pos =>
        let offset_pos := pos.addVec scroll_offset
        let hovered :=
          if self.point_hits_vertical_bar port offset_pos env then
            BarHoveredState.Vertical
          else if self.point_hits_horizontal_bar port offset_pos env then
            BarHoveredState.Horizontal
          else
            self.hovered  -- unreachable in the source
        ({ self with
            hovered := hovered
            opacity := env.scrollbar_max_opacity
            timer_id := TimerToken.INVALID }, port)
    | .MouseDown pos =>
        let p := pos.addVec scroll_offset
        if self.point_hits_vertical_bar port p env then
          let off :=
            p.y - ((self.calc_vertical_bar_bounds port env).getD Rect.ZERO).y0
          ({ self with held := BarHeldState.Vertical off }, port)
        else if self.point_hits_horizontal_bar port p env then
          let off :=
            p.x - ((self.calc_horizontal_bar_bounds port env).getD Rect.ZERO).x0
          ({ self with held := BarHeldState.Horizontal off }, port)
        else
          (self, port)  -- unreachable in the source
    | _ => (self, port)
  else
    match ev with
    | .MouseMove _ =>
        -- if we have just stopped hovering
        if self.hovered.is_hovered && !scrollbar_is_hovered then
          (({ self with hovered := BarHoveredState.None }).reset_scrollbar_fade
            env fresh, port)
        else
          (self, port)
    | .Timer id =>
        if id = self.timer_id then
          -- schedule the 20 ms fade-interval timer
          ({ self with
              timer_id := TimerToken.INVALID
              fade_interval_id := fresh }, port)
        else if id = self.fade_interval_id then
          if self.timer_id = TimerToken.INVALID then
            let diff : ℚ := 2 / 100
            let s := { self with opacity := self.opacity - diff }
            if 0 < s.opacity then
              ({ s with fade_interval_id := fresh }, port)
            else
              (s, port)
          else
            (self, port)
        else
          (self, port)
    | _ => (self, port)

/-! ## Configuration (`config.rs`)

Rust strings, paths and TOML string keys are modelled as `List Char` (a
`PathBuf` is modelled by its text, so `path.to_str()` always succeeds; the
claims' "valid UTF-8" hypothesis is built into the model).  Filesystem and
TOML-text interactions are oracle inputs; the `toml` crate's
value-to-text-to-value round trip is assumed faithful, so serialisation is
modelled at the `toml::Value` level. -/

/-- The fragment of `toml::Value` the config code uses.  The source's tables
are `BTreeMap`s; the model keeps entry lists and reads them only through
key lookup. -/
inductive Toml where
  | Str (s : List Char)
  | Integer (i : ℤ)
  | array (xs : List Toml)
  | Table (kvs : List (List Char × Toml))

/-- Model of `toml::Value::get` with a string key: table lookup. -/
def Toml.get (v : Toml) (k : List Char) : Option Toml :=
  match v with
  | .Table kvs => List.lookup k kvs
  | _ => none

/-- Model of `toml::Value::as_str`. -/
def Toml.as_str : Toml → Option (List Char)
  | .Str s => some s
  | _ => none

/-- Model of `toml::Value::as_integer`. -/
def Toml.as_integer : Toml → Option ℤ
  | .Integer i => some i
  | _ => none

/-- Model of `toml::Value::as_array`. -/
def Toml.as_array : Toml → Option (List Toml)
  | .array xs => some xs
  | _ => none

/-- Model of `toml::Value::as_table` (`as_table_mut` in the source). -/
def Toml.as_table : Toml → Option (List (List Char × Toml))
  | .Table kvs => some kvs
  | _ => none

/-- Model of `LapceWorkspaceType` (defined in `crate::state`, outside this excerpt;
reconstructed from its use in `config.rs`): local, or remote SSH with a user
and a host. -/
inductive LapceWorkspaceType where
  | Local
  | RemoteSSH (user host : List Char)
  deriving DecidableEq, Repr

/-- Model of `LapceWorkspace` (from `crate::state`, reconstructed from its use in
`config.rs`): kind, path and `last_open : u64`. -/
structure LapceWorkspace where
  kind : LapceWorkspaceType
  path : List Char
  last_open : ℕ
  deriving DecidableEq, Repr

/-- Rust `u64 as i64`: two's-complement reinterpretation. -/
def u64_as_i64 (n : ℕ) : ℤ :=
  if n < 2 ^ 63 then (n : ℤ) else (n : ℤ) - 2 ^ 64

/-- Rust `i64 as u64`: two's-complement reinterpretation. -/
def i64_as_u64 (i : ℤ) : ℕ := (i % 2 ^ 64).toNat

/-- Rust `str::starts_with` on the list-of-characters model. -/
def str_starts_with (s pat : List Char) : Bool :=
  decide (s.take pat.length = pat)

/-- The `kind` string written by `Config::update_recent_workspaces`:
`"local"`, or `format!("ssh://{}@{}", user, host)`. -/
def workspace_kind_str (k : LapceWorkspaceType) : List Char :=
  match k with
  | .Local => "local".toList
  | .RemoteSSH user host => "ssh://".toList ++ user ++ '@' :: host

/-- The TOML table `Config::update_recent_workspaces` builds for one
workspace (`kind`, `path`, `last_open`). -/
def workspace_to_table (w : LapceWorkspace) : Toml :=
  Toml.Table [("kind".toList, Toml.Str (workspace_kind_str w.kind)),
              ("path".toList, Toml.Str w.path),
              ("last_open".toList, Toml.Integer (u64_as_i64 w.last_open))]

/-- The full TOML value `Config::update_recent_workspaces` serialises: a
table binding `workspaces` to the array of workspace tables. -/
def update_recent_workspaces_toml (workspaces : List LapceWorkspace) : Toml :=
  Toml.Table [("workspaces".toList,
    Toml.array (workspaces.map workspace_to_table))]

/-- The body of the `filter_map` in `Config::recent_workspaces`: parse one
workspace table, `None` skipping the entry. -/
def parse_workspace (value : Toml) : Option LapceWorkspace := do
  let path ← (← value.get "path".toList).as_str
  let kind_str ← (← value.get "kind".toList).as_str
  let kind ← if str_starts_with kind_str "ssh://".toList then
      match (kind_str.drop 6).splitOn '@' with
      | user :: host :: _ =>
          some (LapceWorkspaceType.RemoteSSH user host)
      | _ => none
    else
      some LapceWorkspaceType.Local
  let last_open := ((value.get "last_open".toList).bind Toml.as_integer).getD 0
  some ⟨kind, path, i64_as_u64 last_open⟩

/-- The extraction `Config::recent_workspaces` performs on the parsed TOML
value: the `workspaces` array is required (`?`), entries that fail to parse
are skipped. -/
def recent_workspaces_extract (value : Toml) : Option (List LapceWorkspace) := do
  let arr ← (value.get "workspaces".toList).bind Toml.as_array
  some (arr.filterMap parse_workspace)

/-- Model of `BTreeMap::insert`: replace the binding if the key exists, else append. -/
def tinsert : List (List Char × Toml) → List Char → Toml →
    List (List Char × Toml)
  | [], k, v => [(k, v)]
  | (k', v') :: rest, k, v =>
      if k' = k then (k, v) :: rest else (k', v') :: tinsert rest k v

/-- The nested-table walk of `Config::update_file`: every dotted key part but
the last descends into a sub-table (created when absent); an existing
non-table entry fails (`as_table_mut()?`); the last part is bound to `value`. -/
def update_file_walk (table : List (List Char × Toml)) :
    List (List Char) → Toml → Option (List (List Char × Toml))
  | [], _ => some table
  | [k], value => some (tinsert table k value)
  | k :: rest, value =>
      let table' := if (List.lookup k table).isSome then table
        else tinsert table k (Toml.Table [])
      match List.lookup k table' with
      | some (Toml.Table sub) => do
          let sub' ← update_file_walk sub rest value
          some (tinsert table' k (Toml.Table sub'))
      | _ => none

/-- A fallible external step (`.ok()?` on an `io::Result`): `some ()` on
success, `none` on failure. -/
def fs_ok (b : Bool) : Option Unit := if b then some () else none

/-- Model of `toml::to_string(..).ok()`: the serialised value when it succeeds. -/
def toml_to_string_result (to_string_ok : Bool) (v : Toml) : Option Toml :=
  if to_string_ok then some v else none

/-- Model of `Config::update_file`.  Oracles: `settings_file` (`None` when the config
directory is unavailable), `read_content` (`None` when `fs::read` fails),
`parsed` (`None` when `toml::from_slice` fails, upon which the source falls
back to an empty table), `to_string_ok` and `write_ok`. -/
def Config.update_file (key : List Char) (value : Toml)
    (settings_file : Option (List Char)) (read_content : Option (List Char))
    (parsed : Option Toml) (to_string_ok write_ok : Bool) : Option Unit := do
  let _path ← settings_file
  let _content ← read_content
  let toml_value := parsed.getD (Toml.Table [])
  let table ← toml_value.as_table
  let parts := key.splitOn '.'
  let _table ← update_file_walk table parts value
  let _s ← fs_ok to_string_ok
  let _w ← fs_ok write_ok
  none

/-- Model of `Config::set_theme`: records the theme name (first component) and, unless
previewing, persists it through `update_file` (same oracles). -/
def Config.set_theme (theme : List Char) (preview : Bool)
    (settings_file : Option (List Char)) (read_content : Option (List Char))
    (parsed : Option Toml) (to_string_ok write_ok : Bool) :
    List Char × Option Unit :=
  let color_theme := theme
  if !preview then
    (color_theme,
      (Config.update_file "lapce.color-theme".toList (Toml.Str theme)
        settings_file read_content parsed to_string_ok write_ok).bind
        fun _ => none)
  else
    (color_theme, none)

/-- Model of `Config::update_recent_workspaces`.  Oracles: `file`
(`recent_workspaces_file`), `to_string_ok`, `open_ok` and `write_ok`. -/
def Config.update_recent_workspaces (workspaces : List LapceWorkspace)
    (file : Option (List Char)) (to_string_ok open_ok write_ok : Bool) :
    Option Unit := do
  let _path ← file
  let _content ← toml_to_string_result to_string_ok
    (update_recent_workspaces_toml workspaces)
  let _f ← fs_ok open_ok
  let _w ← fs_ok write_ok
  none

/-- Map-as-function insert: the observable behaviour of
`hashbrown::HashMap::insert`. -/
def map_insert {C : Type} (m : List Char → Option C) (k : List Char) (c : C) :
    List Char → Option C :=
  fun q => if q = k then some c else m q

/-- The loop body of `get_theme`: a `$name` value is dereferenced once
through the ORIGINAL map and the referenced string is parsed; anything that
fails to resolve or parse inserts nothing. -/
def get_theme_step {C : Type} (hex_to_color : List Char → Option C)
    (theme_colors : List (List Char × List Char))
    (theme : List Char → Option C) (kv : List Char × List Char) :
    List Char → Option C :=
  if str_starts_with kv.2 ['$'] then
    let var_name := kv.2.drop 1
    match List.lookup var_name theme_colors with
    | some hex =>
        match hex_to_color hex with
        | some color => map_insert theme kv.1 color
        | none => theme
    | none => theme
  else
    match hex_to_color kv.2 with
    | some color => map_insert theme kv.1 color
    | none => theme

/-- Model of `get_theme` (`config.rs` 356–375) after the TOML parse into a
string-to-string map succeeded: the map is its entry list (keys distinct);
`hex_to_color` (defined in `crate::data`, outside this excerpt) is an
arbitrary parameter; the resulting color map is modelled by its lookup
function; `Result` is modelled by `Option`. -/
def get_theme {C : Type} (hex_to_color : List Char → Option C)
    (theme_colors : List (List Char × List Char)) : List Char → Option C :=
  theme_colors.foldl (get_theme_step hex_to_color theme_colors) (fun _ => none)

/-- The claims' "no `'@'` in SSH user and host" side condition. -/
def kind_sep_free (k : LapceWorkspaceType) : Prop :=
  match k with
  | .Local => True
  | .RemoteSSH user host => '@' ∉ user ∧ '@' ∉ host

instance (k : LapceWorkspaceType) : Decidable (kind_sep_free k) := by
  cases k <;> dsimp [kind_sep_free] <;> infer_instance

/-! ## Theorems -/

/-- One clamped coordinate lies between `0` and `max c 0`. -/
theorem clamp1_mem (x c : ℚ) : 0 ≤ max (min x c) 0 ∧ max (min x c) 0 ≤ max c 0 :=
  ⟨le_max_right _ _,
   max_le (le_trans (min_le_right _ _) (le_max_left _ _)) (le_max_right _ _)⟩

/-- When the upper bound is negative, the clamped coordinate is `0`. -/
theorem clamp1_zero (x c : ℚ) (hc : c < 0) : max (min x c) 0 = 0 :=
  max_eq_right (le_trans (min_le_right _ _) hc.le)

theorem Rect.with_origin_width (r : Rect) (p : Point) :
    (r.with_origin p).width = r.width := by
  simp [Rect.with_origin, Rect.width]

theorem Rect.with_origin_height (r : Rect) (p : Point) :
    (r.with_origin p).height = r.height := by
  simp [Rect.with_origin, Rect.height]

theorem Rect.with_origin_origin (r : Rect) (p : Point) :
    (r.with_origin p).origin = p := rfl

/-- The clamped origin of a `Viewport` lies in the clamped region bounds. -/
theorem Viewport.clamp_mem (v : Viewport) (p : Point) :
    0 ≤ (v.clamp_view_origin p).x ∧
    (v.clamp_view_origin p).x ≤ max (v.content_size.width - v.rect.width) 0 ∧
    0 ≤ (v.clamp_view_origin p).y ∧
    (v.clamp_view_origin p).y ≤ max (v.content_size.height - v.rect.height) 0 :=
  ⟨(clamp1_mem _ _).1, (clamp1_mem _ _).2, (clamp1_mem _ _).1, (clamp1_mem _ _).2⟩

/-- The clamped origin of a `ViewportNew` lies in the clamped region bounds. -/
theorem ViewportNew.clamp_mem_new (v : ViewportNew) (p : Point) :
    0 ≤ (v.clamp_view_origin p).x ∧
    (v.clamp_view_origin p).x ≤ max (v.content_size.width - v.rect.width) 0 ∧
    0 ≤ (v.clamp_view_origin p).y ∧
    (v.clamp_view_origin p).y ≤ max (v.content_size.height - v.rect.height) 0 :=
  ⟨(clamp1_mem _ _).1, (clamp1_mem _ _).2, (clamp1_mem _ _).1, (clamp1_mem _ _).2⟩

theorem Viewport.pan_to_region (v : Viewport) (p : Point) (h : v.inClampedRegion) :
    (v.pan_to p).1.inClampedRegion := by
  unfold Viewport.pan_to
  by_cases hc : PAN_EPS < ((v.clamp_view_origin p).sub v.rect.origin).hypot2
  · simp only [hc, if_pos]
    have hm := v.clamp_mem p
    simp only [Viewport.inClampedRegion, Rect.with_origin_origin,
      Rect.with_origin_width, Rect.with_origin_height]
    exact hm
  · simp only [hc, if_neg, not_false_iff]
    exact h

theorem ViewportNew.pan_to_region_new (v : ViewportNew) (p : Point)
    (h : v.inClampedRegion) : (v.pan_to p).1.inClampedRegion := by
  unfold ViewportNew.pan_to
  by_cases hc : PAN_EPS < ((v.clamp_view_origin p).sub v.rect.origin).hypot2
  · simp only [hc, if_pos]
    have hm := v.clamp_mem_new p
    simp only [ViewportNew.inClampedRegion, Rect.with_origin_origin,
      Rect.with_origin_width, Rect.with_origin_height]
    exact hm
  · simp only [hc, if_neg, not_false_iff]
    exact h

theorem Viewport.pan_to_zero_x (v : Viewport) (p : Point) (h : v.inClampedRegion)
    (hw : v.content_size.width < v.rect.width) :
    (v.pan_to p).1.rect.origin.x = 0 := by
  unfold Viewport.pan_to
  by_cases hc : PAN_EPS < ((v.clamp_view_origin p).sub v.rect.origin).hypot2
  · simp only [hc, if_pos, Rect.with_origin_origin]
    exact clamp1_zero _ _ (by linarith)
  · simp only [hc, if_neg, not_false_iff]
    have h1 := h.1
    have h2 := h.2.1
    have : max (v.content_size.width - v.rect.width) 0 = 0 :=
      max_eq_right (by linarith)
    linarith [this ▸ h2]

theorem Viewport.pan_to_zero_y (v : Viewport) (p : Point) (h : v.inClampedRegion)
    (hw : v.content_size.height < v.rect.height) :
    (v.pan_to p).1.rect.origin.y = 0 := by
  unfold Viewport.pan_to
  by_cases hc : PAN_EPS < ((v.clamp_view_origin p).sub v.rect.origin).hypot2
  · simp only [hc, if_pos, Rect.with_origin_origin]
    exact clamp1_zero _ _ (by linarith)
  · simp only [hc, if_neg, not_false_iff]
    have h1 := h.2.2.1
    have h2 := h.2.2.2
    have : max (v.content_size.height - v.rect.height) 0 = 0 :=
      max_eq_right (by linarith)
    linarith [this ▸ h2]

theorem ViewportNew.pan_to_zero_x_new (v : ViewportNew) (p : Point)
    (h : v.inClampedRegion) (hw : v.content_size.width < v.rect.width) :
    (v.pan_to p).1.rect.origin.x = 0 := by
  unfold ViewportNew.pan_to
  by_cases hc : PAN_EPS < ((v.clamp_view_origin p).sub v.rect.origin).hypot2
  · simp only [hc, if_pos, Rect.with_origin_origin]
    exact clamp1_zero _ _ (by linarith)
  · simp only [hc, if_neg, not_false_iff]
    have h1 := h.1
    have h2 := h.2.1
    have : max (v.content_size.width - v.rect.width) 0 = 0 :=
      max_eq_right (by linarith)
    linarith [this ▸ h2]

theorem ViewportNew.pan_to_zero_y_new (v : ViewportNew) (p : Point)
    (h : v.inClampedRegion) (hw : v.content_size.height < v.rect.height) :
    (v.pan_to p).1.rect.origin.y = 0 := by
  unfold ViewportNew.pan_to
  by_cases hc : PAN_EPS < ((v.clamp_view_origin p).sub v.rect.origin).hypot2
  · simp only [hc, if_pos, Rect.with_origin_origin]
    exact clamp1_zero _ _ (by linarith)
  · simp only [hc, if_neg, not_false_iff]
    have h1 := h.2.2.1
    have h2 := h.2.2.2
    have : max (v.content_size.height - v.rect.height) 0 = 0 :=
      max_eq_right (by linarith)
    linarith [this ▸ h2]

/-- Claim C1: for every `Viewport` and `ViewportNew` whose view-rectangle
origin lies in the clamped region, `pan_to` with any target point — and hence
`pan_by` with any delta — leaves the origin in that region; in a dimension
where the content is smaller than the view the origin stays at `0`. -/
theorem C1_pan_preserves_clamped_region :
    (∀ (v : Viewport) (p : Point), v.inClampedRegion →
        (v.pan_to p).1.inClampedRegion ∧
        (v.content_size.width < v.rect.width → (v.pan_to p).1.rect.origin.x = 0) ∧
        (v.content_size.height < v.rect.height →
          (v.pan_to p).1.rect.origin.y = 0)) ∧
    (∀ (v : Viewport) (d : Vec2), v.inClampedRegion →
        (v.pan_by d).1.inClampedRegion) ∧
    (∀ (v : ViewportNew) (p : Point), v.inClampedRegion →
        (v.pan_to p).1.inClampedRegion ∧
        (v.content_size.width < v.rect.width → (v.pan_to p).1.rect.origin.x = 0) ∧
        (v.content_size.height < v.rect.height →
          (v.pan_to p).1.rect.origin.y = 0)) ∧
    (∀ (v : ViewportNew) (d : Vec2), v.inClampedRegion →
        (v.pan_by d).1.inClampedRegion) := by
  refine ⟨fun v p h => ⟨v.pan_to_region p h, fun hw => v.pan_to_zero_x p h hw,
      fun hw => v.pan_to_zero_y p h hw⟩,
    fun v d h => ?_,
    fun v p h => ⟨v.pan_to_region_new p h,
      fun hw => v.pan_to_zero_x_new p h hw,
      fun hw => v.pan_to_zero_y_new p h hw⟩,
    fun v d h => ?_⟩
  · exact v.pan_to_region _ h
  · exact v.pan_to_region_new _ h

/-- Build clamped-region membership from inequalities against the raw bound. -/
theorem Viewport.inClampedRegion_of (v : Viewport)
    (h1 : 0 ≤ v.rect.origin.x)
    (h2 : v.rect.origin.x ≤ v.content_size.width - v.rect.width)
    (h3 : 0 ≤ v.rect.origin.y)
    (h4 : v.rect.origin.y ≤ v.content_size.height - v.rect.height) :
    v.inClampedRegion :=
  ⟨h1, le_trans h2 (le_max_left _ _), h3, le_trans h4 (le_max_left _ _)⟩

/-- Build clamped-region membership for `ViewportNew`. -/
theorem ViewportNew.inClampedRegion_of_new (v : ViewportNew)
    (h1 : 0 ≤ v.rect.origin.x)
    (h2 : v.rect.origin.x ≤ v.content_size.width - v.rect.width)
    (h3 : 0 ≤ v.rect.origin.y)
    (h4 : v.rect.origin.y ≤ v.content_size.height - v.rect.height) :
    v.inClampedRegion :=
  ⟨h1, le_trans h2 (le_max_left _ _), h3, le_trans h4 (le_max_left _ _)⟩

/-- Witness for C1 at a concrete viewport already in the clamped region. -/
theorem C1_pan_preserves_clamped_region_witness :
    (Viewport.mk ⟨100, 100⟩ ⟨10, 10, 60, 60⟩).inClampedRegion ∧
    ((Viewport.mk ⟨100, 100⟩ ⟨10, 10, 60, 60⟩).pan_to ⟨500, 500⟩).1.inClampedRegion ∧
    ((ViewportNew.mk ⟨100, 100⟩ ⟨10, 10, 60, 60⟩).pan_by ⟨-500, 3⟩).1.inClampedRegion := by
  have h1 : (Viewport.mk ⟨100, 100⟩ ⟨10, 10, 60, 60⟩).inClampedRegion :=
    Viewport.inClampedRegion_of _ (by norm_num [Rect.origin])
      (by norm_num [Rect.origin, Rect.width]) (by norm_num [Rect.origin])
      (by norm_num [Rect.origin, Rect.height])
  have h2 : (ViewportNew.mk ⟨100, 100⟩ ⟨10, 10, 60, 60⟩).inClampedRegion :=
    ViewportNew.inClampedRegion_of_new _ (by norm_num [Rect.origin])
      (by norm_num [Rect.origin, Rect.width]) (by norm_num [Rect.origin])
      (by norm_num [Rect.origin, Rect.height])
  exact ⟨h1, (C1_pan_preserves_clamped_region.1 _ _ h1).1,
    C1_pan_preserves_clamped_region.2.2.2 _ _ h2⟩

/-- Claim C2: `clamp_view_origin` returns the origin unchanged when the view
rectangle placed there is contained in the content rectangle; in general it
returns, per dimension, `max (min origin (content - view)) 0`; and when the
content is smaller than the view in a dimension it returns `0` there.  Both
for `Viewport` and for `ViewportNew`. -/
theorem C2_clamp_view_origin :
    (∀ (v : Viewport) (p : Point),
      (v.viewContained p → v.clamp_view_origin p = p) ∧
      v.clamp_view_origin p =
        ⟨max (min p.x (v.content_size.width - v.rect.width)) 0,
         max (min p.y (v.content_size.height - v.rect.height)) 0⟩ ∧
      (v.content_size.width < v.rect.width → (v.clamp_view_origin p).x = 0) ∧
      (v.content_size.height < v.rect.height → (v.clamp_view_origin p).y = 0)) ∧
    (∀ (v : ViewportNew) (p : Point),
      (v.viewContained p → v.clamp_view_origin p = p) ∧
      v.clamp_view_origin p =
        ⟨max (min p.x (v.content_size.width - v.rect.width)) 0,
         max (min p.y (v.content_size.height - v.rect.height)) 0⟩ ∧
      (v.content_size.width < v.rect.width → (v.clamp_view_origin p).x = 0) ∧
      (v.content_size.height < v.rect.height →
        (v.clamp_view_origin p).y = 0)) := by
  constructor
  · intro v p
    refine ⟨fun hcont => ?_, rfl, fun hw => clamp1_zero _ _ (by linarith),
      fun hh => clamp1_zero _ _ (by linarith)⟩
    obtain ⟨hx0, hx1, hy0, hy1⟩ := hcont
    have ex : max (min p.x (v.content_size.width - v.rect.width)) 0 = p.x := by
      rw [min_eq_left (by linarith), max_eq_left hx0]
    have ey : max (min p.y (v.content_size.height - v.rect.height)) 0 = p.y := by
      rw [min_eq_left (by linarith), max_eq_left hy0]
    simp [Viewport.clamp_view_origin, ex, ey]
  · intro v p
    refine ⟨fun hcont => ?_, rfl, fun hw => clamp1_zero _ _ (by linarith),
      fun hh => clamp1_zero _ _ (by linarith)⟩
    obtain ⟨hx0, hx1, hy0, hy1⟩ := hcont
    have ex : max (min p.x (v.content_size.width - v.rect.width)) 0 = p.x := by
      rw [min_eq_left (by linarith), max_eq_left hx0]
    have ey : max (min p.y (v.content_size.height - v.rect.height)) 0 = p.y := by
      rw [min_eq_left (by linarith), max_eq_left hy0]
    simp [ViewportNew.clamp_view_origin, ex, ey]

/-- Witness for C2 at concrete viewports. -/
theorem C2_clamp_view_origin_witness :
    (Viewport.mk ⟨100, 100⟩ ⟨0, 0, 50, 50⟩).clamp_view_origin ⟨10, 20⟩ = ⟨10, 20⟩ ∧
    ((ViewportNew.mk ⟨100, 40⟩ ⟨0, 0, 30, 50⟩).clamp_view_origin ⟨7, 9⟩).y = 0 := by
  constructor
  · exact (C2_clamp_view_origin.1 _ _).1
      ⟨by norm_num, by norm_num [Rect.width], by norm_num,
       by norm_num [Rect.height]⟩
  · exact (C2_clamp_view_origin.2 (ViewportNew.mk ⟨100, 40⟩ ⟨0, 0, 30, 50⟩)
      ⟨7, 9⟩).2.2.2 (by norm_num [Rect.height])

/-- Claim C10: `ViewportNew.force_pan_to` sets the origin to exactly `p`;
`Viewport.force_pan_to` sets it to exactly `p` when the squared distance to
the current origin exceeds `1e-12`, and otherwise leaves the state unchanged
and returns `false`; consequently `force_pan_to` — unlike `pan_to` — can
place the view rectangle outside the content rectangle. -/
theorem C10_force_pan_to_unclamped :
    (∀ (v : ViewportNew) (p : Point), (v.force_pan_to p).rect.origin = p) ∧
    (∀ (v : Viewport) (p : Point),
      (PAN_EPS < (p.sub v.rect.origin).hypot2 →
        v.force_pan_to p = ({ v with rect := v.rect.with_origin p }, true)) ∧
      (¬ PAN_EPS < (p.sub v.rect.origin).hypot2 →
        v.force_pan_to p = (v, false))) ∧
    ¬ (ViewportNew.mk ⟨100, 100⟩ ⟨0, 0, 50, 50⟩).viewContained
        ((ViewportNew.mk ⟨100, 100⟩ ⟨0, 0, 50, 50⟩).force_pan_to
          ⟨200, 200⟩).rect.origin ∧
    ((ViewportNew.mk ⟨100, 100⟩ ⟨0, 0, 50, 50⟩).pan_to ⟨200, 200⟩).1.rect.origin =
      ⟨50, 50⟩ := by
  refine ⟨fun v p => rfl, fun v p => ⟨fun h => ?_, fun h => ?_⟩, ?_, ?_⟩
  · simp [Viewport.force_pan_to, h]
  · simp [Viewport.force_pan_to, h]
  · intro hcont
    have h := hcont.2.1
    simp only [ViewportNew.force_pan_to, Rect.with_origin_origin] at h
    norm_num [Rect.width] at h
  · have hcl : (ViewportNew.mk ⟨100, 100⟩ ⟨0, 0, 50, 50⟩).clamp_view_origin
        ⟨200, 200⟩ = ⟨50, 50⟩ := by
      simp only [ViewportNew.clamp_view_origin]
      norm_num [Rect.width, Rect.height]
    simp only [ViewportNew.pan_to, hcl]
    rw [if_pos (by norm_num [PAN_EPS, Point.sub, Vec2.hypot2, Rect.origin])]
    rfl

/-- Claim C3: `calc_vertical_bar_bounds` returns `none` iff the viewport
height is at least the content height, and otherwise returns `some` rectangle;
`calc_horizontal_bar_bounds` behaves symmetrically in the widths.  Both for
`ScrollComponent` over `Viewport` and `ScrollComponentNew` over
`ViewportNew`, for every environment. -/
theorem C3_bar_bounds_none_iff :
    (∀ (s : ScrollComponent) (port : Viewport) (env : Env),
      (s.calc_vertical_bar_bounds port env = none ↔
        port.content_size.height ≤ port.rect.size.height) ∧
      (s.calc_horizontal_bar_bounds port env = none ↔
        port.content_size.width ≤ port.rect.size.width) ∧
      (port.rect.size.height < port.content_size.height →
        ∃ r, s.calc_vertical_bar_bounds port env = some r) ∧
      (port.rect.size.width < port.content_size.width →
        ∃ r, s.calc_horizontal_bar_bounds port env = some r)) ∧
    (∀ (s : ScrollComponentNew) (port : ViewportNew) (env : Env),
      (s.calc_vertical_bar_bounds port env = none ↔
        port.content_size.height ≤ port.rect.size.height) ∧
      (s.calc_horizontal_bar_bounds port env = none ↔
        port.content_size.width ≤ port.rect.size.width) ∧
      (port.rect.size.height < port.content_size.height →
        ∃ r, s.calc_vertical_bar_bounds port env = some r) ∧
      (port.rect.size.width < port.content_size.width →
        ∃ r, s.calc_horizontal_bar_bounds port env = some r)) := by
  constructor
  · intro s port env
    refine ⟨?_, ?_, ?_, ?_⟩
    · unfold ScrollComponent.calc_vertical_bar_bounds
      dsimp only
      split_ifs with h <;> simp [h]
    · unfold ScrollComponent.calc_horizontal_bar_bounds
      dsimp only
      split_ifs with h <;> simp [h]
    · intro h
      unfold ScrollComponent.calc_vertical_bar_bounds
      dsimp only
      rw [if_neg (not_le.mpr h)]
      exact ⟨_, rfl⟩
    · intro h
      unfold ScrollComponent.calc_horizontal_bar_bounds
      dsimp only
      rw [if_neg (not_le.mpr h)]
      exact ⟨_, rfl⟩
  · intro s port env
    refine ⟨?_, ?_, ?_, ?_⟩
    · unfold ScrollComponentNew.calc_vertical_bar_bounds
      dsimp only
      split_ifs with h <;> simp [h]
    · unfold ScrollComponentNew.calc_horizontal_bar_bounds
      dsimp only
      split_ifs with h <;> simp [h]
    · intro h
      unfold ScrollComponentNew.calc_vertical_bar_bounds
      dsimp only
      rw [if_neg (not_le.mpr h)]
      exact ⟨_, rfl⟩
    · intro h
      unfold ScrollComponentNew.calc_horizontal_bar_bounds
      dsimp only
      rw [if_neg (not_le.mpr h)]
      exact ⟨_, rfl⟩

/-- Witness for C3: a visible vertical bar and a hidden horizontal bar at a
concrete viewport. -/
theorem C3_bar_bounds_none_iff_witness :
    (∃ r, ScrollComponent.calc_vertical_bar_bounds
        (ScrollComponent.mk 0 TimerToken.INVALID .None .None)
        (Viewport.mk ⟨100, 200⟩ ⟨0, 0, 100, 100⟩)
        (Env.mk 10 0 (7/10) 0 500) = some r) ∧
    ScrollComponentNew.calc_horizontal_bar_bounds
        (ScrollComponentNew.mk 0 TimerToken.INVALID TimerToken.INVALID .None .None)
        (ViewportNew.mk ⟨100, 200⟩ ⟨0, 0, 100, 100⟩)
        (Env.mk 10 0 (7/10) 0 500) = none := by
  constructor
  · exact (C3_bar_bounds_none_iff.1 _ _ _).2.2.1 (by norm_num [Rect.size, Rect.height])
  · exact ((C3_bar_bounds_none_iff.2 _ _ _).2.1).mpr
      (by norm_num [Rect.size, Rect.width])

/-- Claim C4: when the vertical bar is visible its length
`bottom_y_offset - top_y_offset` equals
`max (ceil (viewport_height / content_height * viewport_height)) 45`; from the
returned rectangle, `bottom_y_offset - top_y_offset = (y1 - y0) + bar_pad`
(the code sets `y0 = offset.y + top_y_offset + bar_pad` and
`y1 = offset.y + bottom_y_offset`).  The horizontal bar obeys the analogous
formula with widths, and `SCROLLBAR_MIN_SIZE` is `45`. -/
theorem C4_bar_length :
    SCROLLBAR_MIN_SIZE = 45 ∧
    (∀ (s : ScrollComponent) (port : Viewport) (env : Env),
      (port.rect.size.height < port.content_size.height →
        ∃ r, s.calc_vertical_bar_bounds port env = some r ∧
          r.y1 - r.y0 + env.scrollbar_pad =
            max (f64ceil (port.rect.size.height / port.content_size.height *
              port.rect.size.height)) SCROLLBAR_MIN_SIZE) ∧
      (port.rect.size.width < port.content_size.width →
        ∃ r, s.calc_horizontal_bar_bounds port env = some r ∧
          r.x1 - r.x0 + env.scrollbar_pad =
            max (f64ceil (port.rect.size.width / port.content_size.width *
              port.rect.size.width)) SCROLLBAR_MIN_SIZE)) := by
  refine ⟨rfl, fun s port env => ⟨fun h => ?_, fun h => ?_⟩⟩
  · unfold ScrollComponent.calc_vertical_bar_bounds
    dsimp only
    rw [if_neg (not_le.mpr h)]
    exact ⟨_, rfl, by ring⟩
  · unfold ScrollComponent.calc_horizontal_bar_bounds
    dsimp only
    rw [if_neg (not_le.mpr h)]
    exact ⟨_, rfl, by ring⟩

/-- Witness for C4 at a concrete viewport: a 100-high view of 200-high
content gives a vertical bar of length `max ⌈50⌉ 45 = 50`. -/
theorem C4_bar_length_witness :
    ∃ r, ScrollComponent.calc_vertical_bar_bounds
        (ScrollComponent.mk 0 TimerToken.INVALID .None .None)
        (Viewport.mk ⟨100, 200⟩ ⟨0, 0, 100, 100⟩)
        (Env.mk 10 0 (7/10) 0 500) = some r ∧
      r.y1 - r.y0 + (0 : ℚ) = 50 := by
  obtain ⟨r, hr, hlen⟩ := (C4_bar_length.2 (ScrollComponent.mk 0
    TimerToken.INVALID .None .None) (Viewport.mk ⟨100, 200⟩ ⟨0, 0, 100, 100⟩)
    (Env.mk 10 0 (7/10) 0 500)).1 (by norm_num [Rect.size, Rect.height])
  refine ⟨r, hr, ?_⟩
  have : max (f64ceil ((100 : ℚ) / 200 * 100)) SCROLLBAR_MIN_SIZE = 50 := by
    norm_num [f64ceil, SCROLLBAR_MIN_SIZE]
  simpa [Rect.size, Rect.height, this] using hlen

/-- Witness for C10 instantiating its conditional parts at concrete inputs. -/
theorem C10_force_pan_to_unclamped_witness :
    (Viewport.mk ⟨100, 100⟩ ⟨0, 0, 50, 50⟩).force_pan_to ⟨200, 200⟩ =
      ({ Viewport.mk ⟨100, 100⟩ ⟨0, 0, 50, 50⟩ with
          rect := Rect.with_origin ⟨0, 0, 50, 50⟩ ⟨200, 200⟩ }, true) ∧
    (Viewport.mk ⟨100, 100⟩ ⟨0, 0, 50, 50⟩).force_pan_to ⟨0, 0⟩ =
      (Viewport.mk ⟨100, 100⟩ ⟨0, 0, 50, 50⟩, false) := by
  constructor
  · exact (C10_force_pan_to_unclamped.2.1 _ _).1
      (by norm_num [PAN_EPS, Point.sub, Vec2.hypot2, Rect.origin])
  · exact (C10_force_pan_to_unclamped.2.1 _ _).2
      (by norm_num [PAN_EPS, Point.sub, Vec2.hypot2, Rect.origin])

/-- Claim C5, divergence witness.  While the horizontal scrollbar is held, the
code computes `scale_x = viewport_size.height / content_size.width` (the
viewport HEIGHT), not `viewport_size.width / content_size.width` as the claim
states.  At a 200×100 viewport over 400×400 content with the thumb held at
offset 0 and the mouse at `x = 10`, the mouse delta is `10`; the code pans by
`ceil (10 / (100/400)) = 40`, while the claim's formula gives
`ceil (10 / (200/400)) = 20`. -/
theorem C5_horizontal_drag_uses_viewport_height :
    (ScrollComponent.event
        (ScrollComponent.mk 0 TimerToken.INVALID .None (.Horizontal 0))
        (Viewport.mk ⟨400, 400⟩ ⟨0, 0, 200, 100⟩)
        (.MouseMove ⟨10, 0⟩) (Env.mk 10 0 (7/10) 0 500)
        5).2.rect.origin.x = 40 ∧
    f64ceil ((10 : ℚ) / (200 / 400)) = 20 ∧
    ((40 : ℚ) = 20 → False) := by
  refine ⟨?_, by norm_num [f64ceil], by norm_num⟩
  have hbounds : ScrollComponent.calc_horizontal_bar_bounds
      (ScrollComponent.mk 0 TimerToken.INVALID .None (.Horizontal 0))
      (Viewport.mk ⟨400, 400⟩ ⟨0, 0, 200, 100⟩) (Env.mk 10 0 (7/10) 0 500) =
      some ⟨0, 90, 100, 100⟩ := by
    unfold ScrollComponent.calc_horizontal_bar_bounds
    dsimp only
    rw [if_neg (by norm_num [Rect.size, Rect.width])]
    norm_num [Rect.size, Rect.width, Rect.height, Rect.origin, Point.to_vec2,
      f64ceil, SCROLLBAR_MIN_SIZE, max_def, min_def]
  unfold ScrollComponent.event Viewport.pan_by Viewport.pan_to
    Viewport.clamp_view_origin
  norm_num [ScrollComponent.are_bars_held, hbounds, Rect.size, Rect.width,
    Rect.height, Rect.origin, Point.to_vec2, Point.addVec, Point.sub,
    Vec2.hypot2, Rect.with_origin, Option.getD, f64ceil, PAN_EPS,
    max_def, min_def, SCROLLBAR_MIN_SIZE]

theorem ScrollComponent.event_animframe (s : ScrollComponent) (port : Viewport)
    (env : Env) (fresh : TimerToken) (interval : ℕ)
    (hheld : s.held = BarHeldState.None)
    (htimer : s.timer_id = TimerToken.INVALID) :
    (s.event port (.AnimFrame interval) env fresh).1.opacity =
      s.opacity - 2 * (interval : ℚ) / 10 ^ 9 := by
  unfold ScrollComponent.event
  simp only [ScrollComponent.are_bars_held, hheld, htimer]
  simp

theorem ScrollComponentNew.event_fade_tick (s : ScrollComponentNew)
    (port : ViewportNew) (env : Env) (fresh : TimerToken)
    (hheld : s.held = BarHeldState.None)
    (htimer : s.timer_id = TimerToken.INVALID)
    (hfade : s.fade_interval_id ≠ TimerToken.INVALID) :
    (s.event port (.Timer s.fade_interval_id) env fresh).1.opacity =
      s.opacity - 2 / 100 := by
  unfold ScrollComponentNew.event
  simp only [ScrollComponentNew.are_bars_held, hheld, htimer]
  rw [if_neg (fun h => hfade h)]
  simp only [if_true, eq_self_iff_true]
  simp
  split_ifs <;> rfl

theorem ScrollComponent.event_opacity_mono (s : ScrollComponent)
    (port : Viewport) (ev : Event) (env : Env) (fresh : TimerToken) :
    (s.event port ev env fresh).1.opacity ≤ s.opacity ∨
    (s.event port ev env fresh).1.opacity = env.scrollbar_max_opacity := by
  obtain ⟨o, tid, hv, hd⟩ := s
  unfold ScrollComponent.event ScrollComponent.reset_scrollbar_fade
  cases ev <;> cases hd <;>
    dsimp only [ScrollComponent.are_bars_held] <;>
    split_ifs <;>
    first
      | exact Or.inl le_rfl
      | exact Or.inr rfl
      | exact Or.inl (sub_le_self _ (by positivity))

theorem ScrollComponentNew.event_opacity_mono_new (s : ScrollComponentNew)
    (port : ViewportNew) (ev : Event) (env : Env) (fresh : TimerToken) :
    (s.event port ev env fresh).1.opacity ≤ s.opacity ∨
    (s.event port ev env fresh).1.opacity = env.scrollbar_max_opacity := by
  obtain ⟨o, tid, fid, hv, hd⟩ := s
  unfold ScrollComponentNew.event ScrollComponentNew.reset_scrollbar_fade
  cases ev <;> cases hd <;>
    dsimp only [ScrollComponentNew.are_bars_held] <;>
    split_ifs <;>
    first
      | exact Or.inl le_rfl
      | exact Or.inr rfl
      | exact Or.inl (sub_le_self _ (by norm_num))

/-- Claim C6: the scrollbar indicators auto-fade.  With no bar held and the
fade timer id invalid, each `AnimFrame` decreases the old component's opacity
by `2 * interval * 1e-9` (strictly when `interval > 0`); in the new component
each 20 ms fade-interval timer tick decreases opacity by `0.02`; a single
`event` step never increases opacity except to the theme maximum (the only
increases — the hover handler and `reset_scrollbar_fade` — set exactly
`SCROLLBAR_MAX_OPACITY`); and `draw_bars` paints nothing when
`opacity ≤ 0`. -/
theorem C6_scrollbar_fade :
    (∀ (s : ScrollComponent) (port : Viewport) (env : Env)
        (fresh : TimerToken) (interval : ℕ),
        s.held = BarHeldState.None → s.timer_id = TimerToken.INVALID →
        (s.event port (.AnimFrame interval) env fresh).1.opacity =
            s.opacity - 2 * (interval : ℚ) / 10 ^ 9 ∧
          (0 < interval →
            (s.event port (.AnimFrame interval) env fresh).1.opacity <
              s.opacity)) ∧
    (∀ (s : ScrollComponentNew) (port : ViewportNew) (env : Env)
        (fresh : TimerToken),
        s.held = BarHeldState.None → s.timer_id = TimerToken.INVALID →
        s.fade_interval_id ≠ TimerToken.INVALID →
        (s.event port (.Timer s.fade_interval_id) env fresh).1.opacity =
          s.opacity - 2 / 100) ∧
    (∀ (s : ScrollComponent) (port : Viewport) (ev : Event) (env : Env)
        (fresh : TimerToken),
        (s.event port ev env fresh).1.opacity ≤ s.opacity ∨
        (s.event port ev env fresh).1.opacity = env.scrollbar_max_opacity) ∧
    (∀ (s : ScrollComponentNew) (port : ViewportNew) (ev : Event) (env : Env)
        (fresh : TimerToken),
        (s.event port ev env fresh).1.opacity ≤ s.opacity ∨
        (s.event port ev env fresh).1.opacity = env.scrollbar_max_opacity) ∧
    (∀ (s : ScrollComponent) (env : Env) (fresh : TimerToken),
        (s.reset_scrollbar_fade env fresh).opacity =
          env.scrollbar_max_opacity) ∧
    (∀ (s : ScrollComponentNew) (env : Env) (fresh : TimerToken),
        (s.reset_scrollbar_fade env fresh).opacity =
          env.scrollbar_max_opacity) ∧
    (∀ (s : ScrollComponent) (port : Viewport) (env : Env),
        s.opacity ≤ 0 → s.draw_bars port env = []) ∧
    (∀ (s : ScrollComponentNew) (port : ViewportNew) (env : Env),
        s.opacity ≤ 0 → s.draw_bars port env = []) := by
  refine ⟨fun s port env fresh interval hheld htimer => ?_,
    fun s port env fresh hheld htimer hfade =>
      s.event_fade_tick port env fresh hheld htimer hfade,
    fun s port ev env fresh => s.event_opacity_mono port ev env fresh,
    fun s port ev env fresh => s.event_opacity_mono_new port ev env fresh,
    fun s env fresh => rfl, fun s env fresh => rfl,
    fun s port env h => ?_, fun s port env h => ?_⟩
  · have he := s.event_animframe port env fresh interval hheld htimer
    refine ⟨he, fun hpos => ?_⟩
    rw [he]
    have : (0 : ℚ) < 2 * (interval : ℚ) / 10 ^ 9 := by positivity
    linarith
  · unfold ScrollComponent.draw_bars
    rw [if_pos h]
  · unfold ScrollComponentNew.draw_bars
    rw [if_pos h]

/-- Witness for C6 instantiating each conditional part at concrete states. -/
theorem C6_scrollbar_fade_witness :
    (ScrollComponent.event (ScrollComponent.mk 1 TimerToken.INVALID .None .None)
        (Viewport.mk ⟨100, 200⟩ ⟨0, 0, 100, 100⟩) (.AnimFrame (10 ^ 9))
        (Env.mk 10 0 (7/10) 0 500) 5).1.opacity = 1 - 2 ∧
    (ScrollComponentNew.event
        (ScrollComponentNew.mk 1 TimerToken.INVALID 5 .None .None)
        (ViewportNew.mk ⟨100, 200⟩ ⟨0, 0, 100, 100⟩) (.Timer 5)
        (Env.mk 10 0 (7/10) 0 500) 6).1.opacity = 1 - 2 / 100 ∧
    ScrollComponent.draw_bars (ScrollComponent.mk 0 TimerToken.INVALID .None .None)
        (Viewport.mk ⟨100, 200⟩ ⟨0, 0, 100, 100⟩) (Env.mk 10 0 (7/10) 0 500) =
      [] := by
  refine ⟨?_, ?_, ?_⟩
  · have h := (C6_scrollbar_fade.1
      (ScrollComponent.mk 1 TimerToken.INVALID .None .None)
      (Viewport.mk ⟨100, 200⟩ ⟨0, 0, 100, 100⟩) (Env.mk 10 0 (7/10) 0 500) 5
      (10 ^ 9) rfl rfl).1
    rw [h]
    norm_num
  · exact C6_scrollbar_fade.2.1
      (ScrollComponentNew.mk 1 TimerToken.INVALID 5 .None .None)
      (ViewportNew.mk ⟨100, 200⟩ ⟨0, 0, 100, 100⟩) (Env.mk 10 0 (7/10) 0 500) 6
      rfl rfl (by norm_num [TimerToken.INVALID])
  · exact C6_scrollbar_fade.2.2.2.2.2.2.1
      (ScrollComponent.mk 0 TimerToken.INVALID .None .None)
      (Viewport.mk ⟨100, 200⟩ ⟨0, 0, 100, 100⟩) (Env.mk 10 0 (7/10) 0 500)
      le_rfl

theorem opt_bind_none {α β : Type} (x : Option α) (f : α → Option β)
    (h : ∀ a, f a = none) : x.bind f = none := by
  cases x <;> simp [h]

theorem u64_i64_roundtrip (n : ℕ) (h : n < 2 ^ 63) :
    i64_as_u64 (u64_as_i64 n) = n := by
  unfold u64_as_i64 i64_as_u64
  rw [if_pos h]
  rw [Int.emod_eq_of_lt (by positivity)
    (by exact_mod_cast lt_trans h (by norm_num))]
  simp

theorem splitOn_append_sep (u h : List Char) (hu : '@' ∉ u) (hh : '@' ∉ h) :
    (u ++ '@' :: h).splitOn '@' = [u, h] := by
  rw [List.splitOn,
    List.splitOnP_first (p := fun x => x == '@') u
      (fun x hx H => hu (by rwa [eq_of_beq H] at hx)) '@'
      (beq_self_eq_true _) h]
  rw [List.splitOnP_eq_single (p := fun x => x == '@') h
    (fun x hx H => hh (by rwa [eq_of_beq H] at hx))]

theorem parse_workspace_roundtrip (w : LapceWorkspace)
    (h1 : w.last_open < 2 ^ 63) (h2 : kind_sep_free w.kind) :
    parse_workspace (workspace_to_table w) = some w := by
  obtain ⟨kind, path, lo⟩ := w
  cases kind with
  | Local =>
      have key : parse_workspace (workspace_to_table ⟨.Local, path, lo⟩) =
          some ⟨.Local, path, i64_as_u64 (u64_as_i64 lo)⟩ := rfl
      rw [key, u64_i64_roundtrip lo h1]
  | RemoteSSH user host =>
      obtain ⟨hu, hh⟩ := h2
      have hks : workspace_kind_str (.RemoteSSH user host) =
          "ssh://".toList ++ (user ++ '@' :: host) := by
        simp [workspace_kind_str, List.append_assoc]
      have hstart : str_starts_with (workspace_kind_str (.RemoteSSH user host))
          "ssh://".toList = true := by
        rw [hks]
        unfold str_starts_with
        rw [List.take_left]
        simp
      have hdrop : (workspace_kind_str (.RemoteSSH user host)).drop 6 =
          user ++ '@' :: host := by
        rw [hks, show (6 : ℕ) = ("ssh://".toList).length from rfl,
          List.drop_left]
      have hsplit : ((workspace_kind_str (.RemoteSSH user host)).drop 6).splitOn
          '@' = [user, host] := by
        rw [hdrop]; exact splitOn_append_sep user host hu hh
      have hget_path : Toml.get
          (workspace_to_table ⟨.RemoteSSH user host, path, lo⟩) "path".toList =
          some (Toml.Str path) := rfl
      have hget_kind : Toml.get
          (workspace_to_table ⟨.RemoteSSH user host, path, lo⟩) "kind".toList =
          some (Toml.Str (workspace_kind_str (.RemoteSSH user host))) := rfl
      have hget_lo : Toml.get
          (workspace_to_table ⟨.RemoteSSH user host, path, lo⟩)
          "last_open".toList = some (Toml.Integer (u64_as_i64 lo)) := rfl
      unfold parse_workspace
      simp only [hget_path, hget_kind, hget_lo, Option.bind_eq_bind,
        Option.some_bind, Toml.as_str, Toml.as_integer, Option.getD,
        hstart, if_true, hsplit, u64_i64_roundtrip lo h1]

/-- Claim C7: serialising a workspace list as `update_recent_workspaces` does
and parsing the result as `recent_workspaces` does returns exactly the same
list, provided each `last_open` fits in `i64` and no SSH user or host
contains `'@'` (paths are valid UTF-8 by construction in the model). -/
theorem C7_recent_workspaces_roundtrip (ws : List LapceWorkspace)
    (h : ∀ w ∈ ws, w.last_open < 2 ^ 63 ∧ kind_sep_free w.kind) :
    recent_workspaces_extract (update_recent_workspaces_toml ws) = some ws := by
  have hmain : ∀ (l : List LapceWorkspace),
      (∀ w ∈ l, w.last_open < 2 ^ 63 ∧ kind_sep_free w.kind) →
      (l.map workspace_to_table).filterMap parse_workspace = l := by
    intro l
    induction l with
    | nil => intro _; rfl
    | cons w t ih =>
        intro hl
        have hw := hl w (List.mem_cons_self w t)
        rw [List.map_cons, List.filterMap_cons,
          parse_workspace_roundtrip w hw.1 hw.2,
          ih fun x hx => hl x (List.mem_cons_of_mem w hx)]
  have hred : recent_workspaces_extract (update_recent_workspaces_toml ws) =
      some ((ws.map workspace_to_table).filterMap parse_workspace) := rfl
  rw [hred, hmain ws h]

/-- Witness for C7: a local and an SSH workspace round-trip. -/
theorem C7_recent_workspaces_roundtrip_witness :
    recent_workspaces_extract (update_recent_workspaces_toml
      [⟨.Local, "/tmp/a".toList, 3⟩,
       ⟨.RemoteSSH "user".toList "host".toList, "/x".toList, 5⟩]) =
    some [⟨.Local, "/tmp/a".toList, 3⟩,
       ⟨.RemoteSSH "user".toList "host".toList, "/x".toList, 5⟩] :=
  C7_recent_workspaces_roundtrip _ (by decide)

theorem get_theme_step_ne {C : Type} (f : List Char → Option C)
    (tc : List (List Char × List Char)) (acc : List Char → Option C)
    (p : List Char × List Char) (k : List Char) (h : p.1 ≠ k) :
    get_theme_step f tc acc p k = acc k := by
  unfold get_theme_step
  have hne : ¬ k = p.1 := fun e => h e.symm
  split_ifs with hb
  · dsimp only
    cases hl : List.lookup (p.2.drop 1) tc with
    | none => simp [hl]
    | some hex =>
        cases hc : f hex with
        | none => simp [hl, hc]
        | some c => simp [hl, hc, map_insert, hne]
  · cases hc : f p.2 with
    | none => simp [hc]
    | some c => simp [hc, map_insert, hne]

theorem get_theme_foldl_ne {C : Type} (f : List Char → Option C)
    (tc : List (List Char × List Char)) :
    ∀ (l : List (List Char × List Char)) (acc : List Char → Option C)
      (k : List Char), (∀ p ∈ l, p.1 ≠ k) →
      List.foldl (get_theme_step f tc) acc l k = acc k := by
  intro l
  induction l with
  | nil => intro acc k _; rfl
  | cons p t ih =>
      intro acc k hl
      rw [List.foldl_cons,
        ih _ k fun q hq => hl q (List.mem_cons_of_mem p hq),
        get_theme_step_ne f tc acc p k (hl p (List.mem_cons_self p t))]

theorem get_theme_step_self {C : Type} (f : List Char → Option C)
    (tc : List (List Char × List Char)) (acc : List Char → Option C)
    (k v : List Char) (hacc : acc k = none) :
    get_theme_step f tc acc (k, v) k =
      (if str_starts_with v ['$'] then (List.lookup (v.drop 1) tc).bind f
       else f v) := by
  unfold get_theme_step
  split_ifs with hb
  · dsimp only
    cases hl : List.lookup (v.drop 1) tc with
    | none => simpa [hl] using hacc
    | some hex =>
        cases hc : f hex with
        | none => simpa [hl, hc] using hacc
        | some c => simp [hl, hc, map_insert]
  · cases hc : f v with
    | none => simpa [hc] using hacc
    | some c => simp [hc, map_insert]

theorem get_theme_foldl_mem {C : Type} (f : List Char → Option C)
    (tc : List (List Char × List Char)) (k v : List Char) :
    ∀ (l : List (List Char × List Char)) (acc : List Char → Option C),
      (l.map Prod.fst).Nodup → (k, v) ∈ l → acc k = none →
      List.foldl (get_theme_step f tc) acc l k =
        (if str_starts_with v ['$'] then (List.lookup (v.drop 1) tc).bind f
         else f v) := by
  intro l
  induction l with
  | nil => intro acc _ hmem _; exact absurd hmem (List.not_mem_nil _)
  | cons p t ih =>
      intro acc hnd hmem hacc
      rw [List.map_cons, List.nodup_cons] at hnd
      rw [List.foldl_cons]
      rcases List.mem_cons.mp hmem with heq | hmem'
      · subst heq
        have hk : ∀ q ∈ t, q.1 ≠ k := by
          intro q hq e
          apply hnd.1
          show k ∈ t.map Prod.fst
          rw [← e]
          exact List.mem_map_of_mem Prod.fst hq
        rw [get_theme_foldl_ne f tc t _ k hk,
          get_theme_step_self f tc acc k v hacc]
      · have hp : p.1 ≠ k := by
          intro e
          exact hnd.1 (e ▸ List.mem_map_of_mem Prod.fst hmem')
        exact ih _ hnd.2 hmem'
          (by rw [get_theme_step_ne f tc acc p k hp, hacc])

/-- Claim C8: for a parsed theme map with distinct keys, `get_theme` binds a
key with a non-`$` value to the parse of that value, a key with a `$name`
value to the parse of the string bound to `name` in the original map (one
level of dereference, never chained), and silently omits entries whose
reference is missing or whose hex string fails to parse; no entry produces an
error. -/
theorem C8_get_theme_semantics {C : Type} (hex_to_color : List Char → Option C)
    (tc : List (List Char × List Char)) (hnd : (tc.map Prod.fst).Nodup)
    (k v : List Char) (hmem : (k, v) ∈ tc) :
    get_theme hex_to_color tc k =
      if str_starts_with v ['$'] then
        (List.lookup (v.drop 1) tc).bind hex_to_color
      else hex_to_color v :=
  get_theme_foldl_mem hex_to_color tc k v tc (fun _ => none) hnd hmem rfl

/-- Witness for C8: a direct color, a one-level `$` reference, and a dangling
reference that is silently omitted. -/
theorem C8_get_theme_semantics_witness :
    get_theme (fun s => if s = "#fff".toList then some 1 else none)
      [("a".toList, "#fff".toList), ("b".toList, "$a".toList),
       ("c".toList, "$zz".toList)] "b".toList = some 1 ∧
    get_theme (fun s => if s = "#fff".toList then some 1 else none)
      [("a".toList, "#fff".toList), ("b".toList, "$a".toList),
       ("c".toList, "$zz".toList)] "c".toList = none := by
  constructor
  · rw [C8_get_theme_semantics (fun s => if s = "#fff".toList then some 1
      else none) _ (by decide) "b".toList "$a".toList (by decide)]
    decide
  · rw [C8_get_theme_semantics (fun s => if s = "#fff".toList then some 1
      else none) _ (by decide) "c".toList "$zz".toList (by decide)]
    decide

theorem Config.update_file_eq_none (key : List Char) (value : Toml)
    (settings_file : Option (List Char)) (read_content : Option (List Char))
    (parsed : Option Toml) (to_string_ok write_ok : Bool) :
    Config.update_file key value settings_file read_content parsed
      to_string_ok write_ok = none := by
  unfold Config.update_file
  apply opt_bind_none; intro _
  apply opt_bind_none; intro _
  apply opt_bind_none; intro _
  apply opt_bind_none; intro _
  apply opt_bind_none; intro _
  apply opt_bind_none; intro _
  rfl

theorem Config.update_recent_workspaces_eq_none
    (workspaces : List LapceWorkspace) (file : Option (List Char))
    (to_string_ok open_ok write_ok : Bool) :
    Config.update_recent_workspaces workspaces file to_string_ok open_ok
      write_ok = none := by
  unfold Config.update_recent_workspaces
  apply opt_bind_none; intro _
  apply opt_bind_none; intro _
  apply opt_bind_none; intro _
  apply opt_bind_none; intro _
  rfl

/-- Claim C9: `update_file`, `set_theme` and `update_recent_workspaces`
return `None` on every execution path — including the all-success path —
so `Some(())` is never produced and callers cannot distinguish success from
failure. -/
theorem C9_config_updates_always_none :
    (∀ (key : List Char) (value : Toml) (settings_file : Option (List Char))
        (read_content : Option (List Char)) (parsed : Option Toml)
        (to_string_ok write_ok : Bool),
      Config.update_file key value settings_file read_content parsed
        to_string_ok write_ok = none) ∧
    (∀ (theme : List Char) (preview : Bool)
        (settings_file : Option (List Char))
        (read_content : Option (List Char)) (parsed : Option Toml)
        (to_string_ok write_ok : Bool),
      (Config.set_theme theme preview settings_file read_content parsed
        to_string_ok write_ok).2 = none) ∧
    (∀ (workspaces : List LapceWorkspace) (file : Option (List Char))
        (to_string_ok open_ok write_ok : Bool),
      Config.update_recent_workspaces workspaces file to_string_ok open_ok
        write_ok = none) := by
  refine ⟨Config.update_file_eq_none, ?_,
    Config.update_recent_workspaces_eq_none⟩
  intro theme preview settings_file read_content parsed to_string_ok write_ok
  unfold Config.set_theme
  cases preview
  · dsimp only [Bool.not_false, if_true]
    exact opt_bind_none _ _ fun _ => rfl
  · rfl

end Lapce
